import Mathlib

/-
  Verification of the transaction-reliability layer of the repository
  (Solana controller revisions and the Meteora balance-delta observer).

  The embedding is a shallow translation of the TypeScript sources:
  - Rev1 models the revision in src/unnamed/part_001 (SolanaController with
    confirmTransaction, confirmTransactionByAddress, fetchEstimatePriorityFees
    with floored default tiers, and sendAndConfirmTransaction that refreshes
    the observed block height each iteration).
  - Rev2 models the later revision in src/unnamed/part_002 (second document:
    confirmTransaction with an explicit commitment parameter compared by
    strict equality, fetchEstimatePriorityFees without a minimum floor, and
    sendAndConfirmTransaction without a height refresh and without the
    address-based fallback).
  - Meteora models src/src/connectors/meteora/meteora.controller.ts
    (extractTokenBalanceChangeAndFee, extractAccountBalanceChangeAndFee).

  Network interactions are modeled by explicit environments: each RPC round
  trip is a value of FetchResult supplied by the environment, indexed by the
  order of the call.  The retry loops are written with explicit fuel; all
  claims hold for every fuel value.  Runs additionally produce a trace of
  events (height observations, broadcasts, confirmation checks) so that
  temporal claims about ordering can be stated.
-/

/-- Commitment levels of the chain, ordered processed < confirmed < finalized
(the JSON string values of confirmationStatus). -/
inductive Commitment where
  | processed
  | confirmed
  | finalized
deriving DecidableEq

/-- Result of one fetch round trip: the request promise rejected (network or
parse error thrown), the HTTP response was not ok, or a decoded body. -/
inductive FetchResult (α : Type) where
  | networkError
  | httpNotOk (status : Nat)
  | ok (value : α)
deriving DecidableEq

/-- Signature status entry as returned by getSignatureStatuses: an optional
on-chain error object and an optional confirmation status string. -/
structure SigStatus where
  err : Option String
  confirmationStatus : Option Commitment
deriving DecidableEq

/-- Entry of the getSignaturesForAddress response list. -/
structure AddrEntry where
  signature : String
  err : Option String
  confirmationStatus : Option Commitment
deriving DecidableEq

/-- JSON-RPC request payload as built by fetchEstimatePriorityFees. -/
structure Payload where
  method : String
  params : List (List String)
  id : Nat
  jsonrpc : String
deriving DecidableEq

/-- One element of the getRecentPrioritizationFees result array. -/
structure PrioritizationFeeSample where
  prioritizationFee : Int
  slot : Nat
deriving DecidableEq

/-- Tiered fee schedule (the FeeEstimates interface). -/
structure FeeEstimates where
  low : Int
  medium : Int
  high : Int
  extreme : Int
deriving DecidableEq

/-- Cause of a throw inside confirmTransaction or
confirmTransactionByAddress; the catch block rethrows, so the cause
propagates to the caller of the confirm function. -/
inductive CtError where
  | onChainError
  | httpError (status : Nat)
  | networkError
deriving DecidableEq

/-- Terminal error of sendAndConfirmTransaction: a propagated confirmation
failure, or the expiration error thrown after the final check. -/
inductive SubmitError where
  | confirmFailed (e : CtError)
  | expired
deriving DecidableEq

/-- Result of a sendAndConfirmTransaction run.  ok carries the returned
signature; okUndefined marks the JS path that returns the uninitialized
signature variable; fuelOut marks fuel exhaustion of the model (the JS loop
would keep iterating). -/
inductive Outcome where
  | ok (signature : String)
  | okUndefined
  | err (e : SubmitError)
  | fuelOut
deriving DecidableEq

/-- Observable events of a submission run, in program order. -/
inductive Event where
  | obsHeight (h : Nat)
  | send (signature : String)
  | checkDirect (i : Nat)
  | checkByAddr (i : Nat)
  | checkFinalDirect
  | checkFinalByAddr
deriving DecidableEq

/-- Insert a value into an ascending list (helper for the ascending sort
performed by Array.prototype.sort with comparator a - b). -/
def sortInsert (a : Int) : List Int → List Int
  | [] => [a]
  | b :: l => if a ≤ b then a :: b :: l else b :: sortInsert a l

/-- Ascending sort, modelling nonZeroFees.sort((a, b) => a - b). -/
def sortAsc : List Int → List Int
  | [] => []
  | a :: l => sortInsert a (sortAsc l)

/-- Math.floor(maxFee * frac) over exact rationals. -/
def tierFloor (maxFee : Int) (frac : ℚ) : Int :=
  Int.floor ((maxFee : ℚ) * frac)

/-- The fees extracted from the response, with zero fees filtered out and the
remainder sorted ascending (shared by both estimator revisions). -/
def nonZeroFeesSorted (samples : List PrioritizationFeeSample) : List Int :=
  sortAsc ((samples.map (fun item => item.prioritizationFee)).filter (fun fee => 0 < fee))

namespace Rev1

/-- The DEFAULT_FEES constant of the part_001 revision. -/
def DEFAULT_FEES : FeeEstimates :=
  { low := 10000, medium := 20000, high := 30000, extreme := 40000 }

/-- Params list built by fetchEstimatePriorityFees: when an account argument
is present, a fixed hardcoded tracking account is pushed instead of the
caller's value; otherwise the params list stays empty. -/
def priorityFeeParams (account : Option String) : List (List String) :=
  match account with
  | some _ => [["GASeo1wEK3rWwep6fsAt212Jw9zAYguDY5qUwTnyZ4RH"]]
  | none => []

/-- The full getRecentPrioritizationFees request payload. -/
def priorityFeePayload (account : Option String) : Payload :=
  { method := "getRecentPrioritizationFees"
    params := priorityFeeParams account
    id := 1
    jsonrpc := "2.0" }

/-- Tier computation of part_001: fractions of the maximal nonzero fee,
floored, each raised to the corresponding DEFAULT_FEES tier; DEFAULT_FEES
unchanged when no nonzero samples exist. -/
def computeTiers (samples : List PrioritizationFeeSample) : FeeEstimates :=
  match (nonZeroFeesSorted samples).getLast? with
  | none => DEFAULT_FEES
  | some maxFee =>
    { low := max (tierFloor maxFee (1/4)) DEFAULT_FEES.low
      medium := max (tierFloor maxFee (1/2)) DEFAULT_FEES.medium
      high := max (tierFloor maxFee (3/4)) DEFAULT_FEES.high
      extreme := max (tierFloor maxFee 1) DEFAULT_FEES.extreme }

/-- Body of the try block of fetchEstimatePriorityFees: a rejected fetch or
json() call is an error; a non-ok HTTP status returns DEFAULT_FEES directly;
otherwise the tiers are computed from the samples. -/
def fetchEstimatePriorityFeesTry (account : Option String)
    (net : Payload → FetchResult (List PrioritizationFeeSample)) :
    Except Unit FeeEstimates :=
  match net (priorityFeePayload account) with
  | .networkError => .error ()
  | .httpNotOk _ => .ok DEFAULT_FEES
  | .ok samples => .ok (computeTiers samples)

/-- fetchEstimatePriorityFees of part_001: the catch block absorbs any thrown
error into DEFAULT_FEES. -/
def fetchEstimatePriorityFees (account : Option String)
    (net : Payload → FetchResult (List PrioritizationFeeSample)) : FeeEstimates :=
  match fetchEstimatePriorityFeesTry account net with
  | .ok v => v
  | .error _ => DEFAULT_FEES

/-- confirmTransaction of part_001: throws on HTTP failure and on a non-null
on-chain error; reports confirmed when the status string is confirmed or
finalized; reports false when no status entry is present. -/
def confirmTransaction (resp : FetchResult (Option SigStatus)) : Except CtError Bool :=
  match resp with
  | .networkError => .error .networkError
  | .httpNotOk status => .error (.httpError status)
  | .ok none => .ok false
  | .ok (some status) =>
    match status.err with
    | some _ => .error .onChainError
    | none =>
      .ok (status.confirmationStatus == some .confirmed
        || status.confirmationStatus == some .finalized)

/-- confirmTransactionByAddress of part_001: searches the address history for
the target signature; throws on HTTP failure and on a non-null error of the
found entry; reports false when the signature does not appear. -/
def confirmTransactionByAddress (signature : String)
    (resp : FetchResult (Option (List AddrEntry))) : Except CtError Bool :=
  match resp with
  | .networkError => .error .networkError
  | .httpNotOk status => .error (.httpError status)
  | .ok none => .ok false
  | .ok (some entries) =>
    match entries.find? (fun entry => entry.signature == signature) with
    | none => .ok false
    | some transactionInfo =>
      match transactionInfo.err with
      | some _ => .error .onChainError
      | none =>
        .ok (transactionInfo.confirmationStatus == some .confirmed
          || transactionInfo.confirmationStatus == some .finalized)

/-- Environment of a part_001 submission run: results of getBlockHeight
calls in call order, the signature returned by each broadcast, the responses
of the two read paths per loop iteration, and the responses of the two final
checks after the loop. -/
structure Env where
  heights : Nat → Nat
  sig : Nat → String
  directResp : Nat → FetchResult (Option SigStatus)
  byAddrResp : Nat → FetchResult (Option (List AddrEntry))
  finalDirectResp : FetchResult (Option SigStatus)
  finalByAddrResp : FetchResult (Option (List AddrEntry))

/-- The signature value used by the post-loop checks (undefined in JS when
the loop body never ran). -/
def sigOrUndefined : Option String → String
  | some s => s
  | none => "undefined"

/-- Post-loop block of part_001: one more check on each read path; the
expiration error is thrown only if both report unconfirmed. -/
def epilogue (env : Env) (lastSig : Option String) : List Event × Outcome :=
  match confirmTransaction env.finalDirectResp with
  | .error e => ([.checkFinalDirect], .err (.confirmFailed e))
  | .ok true =>
    ([.checkFinalDirect],
      match lastSig with
      | some s => .ok s
      | none => .okUndefined)
  | .ok false =>
    match confirmTransactionByAddress (sigOrUndefined lastSig) env.finalByAddrResp with
    | .error e => ([.checkFinalDirect, .checkFinalByAddr], .err (.confirmFailed e))
    | .ok true =>
      ([.checkFinalDirect, .checkFinalByAddr],
        match lastSig with
        | some s => .ok s
        | none => .okUndefined)
    | .ok false => ([.checkFinalDirect, .checkFinalByAddr], .err .expired)

/-- Retry loop of part_001's sendAndConfirmTransaction.  While the observed
blockheight is below lastValidBlockHeight: broadcast, check the direct path,
then the address path, and on both reporting false refresh the observed
height and iterate.  On loop exit the epilogue runs.  The trace lists the
events of the remainder of the run. -/
def loop (env : Env) (lastValidBlockHeight : Nat) :
    Nat → Nat → Nat → Option String → List Event × Outcome
  | 0, _, blockheight, lastSig =>
    if blockheight < lastValidBlockHeight then ([], .fuelOut)
    else epilogue env lastSig
  | fuel + 1, i, blockheight, lastSig =>
    if blockheight < lastValidBlockHeight then
      let s := env.sig i
      match confirmTransaction (env.directResp i) with
      | .error e => ([.send s, .checkDirect i], .err (.confirmFailed e))
      | .ok true => ([.send s, .checkDirect i], .ok s)
      | .ok false =>
        match confirmTransactionByAddress s (env.byAddrResp i) with
        | .error e => ([.send s, .checkDirect i, .checkByAddr i], .err (.confirmFailed e))
        | .ok true => ([.send s, .checkDirect i, .checkByAddr i], .ok s)
        | .ok false =>
          let h := env.heights (i + 1)
          let rest := loop env lastValidBlockHeight fuel (i + 1) h (some s)
          (.send s :: .checkDirect i :: .checkByAddr i :: .obsHeight h :: rest.1, rest.2)
    else epilogue env lastSig

/-- sendAndConfirmTransaction of part_001 (from the first getBlockHeight on):
the initial height is observed, lastValidBlockHeight is set to that height
plus 100, and the retry loop runs. -/
def sendAndConfirmTransaction (env : Env) (fuel : Nat) : List Event × Outcome :=
  let blockheight := env.heights 0
  let lastValidBlockHeight := blockheight + 100
  let rest := loop env lastValidBlockHeight fuel 0 blockheight none
  (.obsHeight blockheight :: rest.1, rest.2)

end Rev1

namespace Rev2

/-- Fallback returned by the catch block of part_002's
fetchEstimatePriorityFees. -/
def CATCH_FEES : FeeEstimates :=
  { low := 2000, medium := 4000, high := 6000, extreme := 8000 }

/-- Value returned by part_002's fetchEstimatePriorityFees on a non-ok HTTP
response. -/
def HTTP_ERROR_FEES : FeeEstimates :=
  { low := 0, medium := 0, high := 0, extreme := 8000 }

/-- Default tier values of part_002 when no nonzero fee samples exist. -/
def EMPTY_FEES : FeeEstimates :=
  { low := 0, medium := 0, high := 0, extreme := 0 }

/-- Params list built by part_002's fetchEstimatePriorityFees: the caller's
account value is pushed when present. -/
def priorityFeeParams (account : Option String) : List (List String) :=
  match account with
  | some a => [[a]]
  | none => []

/-- The full getRecentPrioritizationFees request payload of part_002. -/
def priorityFeePayload (account : Option String) : Payload :=
  { method := "getRecentPrioritizationFees"
    params := priorityFeeParams account
    id := 1
    jsonrpc := "2.0" }

/-- Tier computation of part_002: plain fractions of the maximal nonzero fee,
floored, with no minimum floor; all tiers zero when no nonzero samples
exist. -/
def computeTiers (samples : List PrioritizationFeeSample) : FeeEstimates :=
  match (nonZeroFeesSorted samples).getLast? with
  | none => EMPTY_FEES
  | some maxFee =>
    { low := tierFloor maxFee (1/4)
      medium := tierFloor maxFee (1/2)
      high := tierFloor maxFee (3/4)
      extreme := tierFloor maxFee 1 }

/-- Body of the try block of part_002's fetchEstimatePriorityFees. -/
def fetchEstimatePriorityFeesTry (account : Option String)
    (net : Payload → FetchResult (List PrioritizationFeeSample)) :
    Except Unit FeeEstimates :=
  match net (priorityFeePayload account) with
  | .networkError => .error ()
  | .httpNotOk _ => .ok HTTP_ERROR_FEES
  | .ok samples => .ok (computeTiers samples)

/-- fetchEstimatePriorityFees of part_002: the catch block absorbs any thrown
error into CATCH_FEES. -/
def fetchEstimatePriorityFees (account : Option String)
    (net : Payload → FetchResult (List PrioritizationFeeSample)) : FeeEstimates :=
  match fetchEstimatePriorityFeesTry account net with
  | .ok v => v
  | .error _ => CATCH_FEES

/-- confirmTransaction of part_002: takes the requested commitment level and
compares the reported confirmation status with it by strict equality;
throws on HTTP failure and on a non-null on-chain error. -/
def confirmTransaction (commitment : Commitment)
    (resp : FetchResult (Option SigStatus)) : Except CtError Bool :=
  match resp with
  | .networkError => .error .networkError
  | .httpNotOk status => .error (.httpError status)
  | .ok none => .ok false
  | .ok (some status) =>
    match status.err with
    | some _ => .error .onChainError
    | none => .ok (status.confirmationStatus == some commitment)

/-- Environment of a part_002 submission run: the single getBlockHeight
result, the signature of each broadcast, the direct-path response per loop
iteration, and the response of the one final check after the loop. -/
structure Env where
  height0 : Nat
  sig : Nat → String
  directResp : Nat → FetchResult (Option SigStatus)
  finalDirectResp : FetchResult (Option SigStatus)

/-- Post-loop block of part_002: a single direct-path check; the expiration
error is thrown exactly when it reports unconfirmed. -/
def epilogue (env : Env) (commitment : Commitment) (lastSig : Option String) :
    List Event × Outcome :=
  match confirmTransaction commitment env.finalDirectResp with
  | .error e => ([.checkFinalDirect], .err (.confirmFailed e))
  | .ok true =>
    ([.checkFinalDirect],
      match lastSig with
      | some s => .ok s
      | none => .okUndefined)
  | .ok false => ([.checkFinalDirect], .err .expired)

/-- Retry loop of part_002's sendAndConfirmTransaction.  The observed
blockheight is read once before the loop and never refreshed inside it, so
the guard compares the same observed value on every iteration. -/
def loop (env : Env) (commitment : Commitment) (lastValidBlockHeight : Nat) :
    Nat → Nat → Nat → Option String → List Event × Outcome
  | 0, _, blockheight, lastSig =>
    if blockheight < lastValidBlockHeight then ([], .fuelOut)
    else epilogue env commitment lastSig
  | fuel + 1, i, blockheight, lastSig =>
    if blockheight < lastValidBlockHeight then
      let s := env.sig i
      match confirmTransaction commitment (env.directResp i) with
      | .error e => ([.send s, .checkDirect i], .err (.confirmFailed e))
      | .ok true => ([.send s, .checkDirect i], .ok s)
      | .ok false =>
        let rest := loop env commitment lastValidBlockHeight fuel (i + 1) blockheight (some s)
        (.send s :: .checkDirect i :: rest.1, rest.2)
    else epilogue env commitment lastSig

/-- sendAndConfirmTransaction of part_002 (from the getBlockHeight call on):
lastValidBlockHeight comes from the transaction object. -/
def sendAndConfirmTransaction (env : Env) (commitment : Commitment)
    (lastValidBlockHeight : Nat) (fuel : Nat) : List Event × Outcome :=
  let blockheight := env.height0
  let rest := loop env commitment lastValidBlockHeight fuel 0 blockheight none
  (.obsHeight blockheight :: rest.1, rest.2)

end Rev2

namespace Meteora

/-- The uiTokenAmount object of a token balance entry; uiAmount may be
null. -/
structure UiTokenAmount where
  uiAmount : Option ℚ
deriving DecidableEq

/-- Entry of preTokenBalances and postTokenBalances. -/
structure TokenBalanceEntry where
  mint : String
  owner : String
  uiTokenAmount : UiTokenAmount
deriving DecidableEq

/-- The meta object of a parsed transaction; lamport account balances are
kept as exact rationals. -/
structure TxMeta where
  preTokenBalances : Option (List TokenBalanceEntry)
  postTokenBalances : Option (List TokenBalanceEntry)
  preBalances : Option (List ℚ)
  postBalances : Option (List ℚ)
  fee : Option ℚ
deriving DecidableEq

/-- Parsed transaction details; meta may be null. -/
structure TxDetails where
  meta : Option TxMeta
deriving DecidableEq

/-- The attempt bound of the txDetails polling loop. -/
def MAX_ATTEMPTS : Nat := 20

/-- Polling loop shared by both extractors: up to MAX_ATTEMPTS calls to
getParsedTransaction (the environment maps the attempt number to the fetched
details, none standing for a thrown error or a null result); the first
non-null result is kept. -/
def fetchWithRetry (env : Nat → Option TxDetails) : Option TxDetails :=
  (List.range MAX_ATTEMPTS).findSome? env

/-- Amount lookup of the token extractors: find the entry for the given mint
and owner and take its uiAmount, with JS falsy coalescing to zero for a
missing entry or a null amount. -/
def tokenBalanceAmount (entries : List TokenBalanceEntry) (mint owner : String) : ℚ :=
  ((entries.find? (fun balance => balance.mint == mint && balance.owner == owner)).bind
    (fun balance => balance.uiTokenAmount.uiAmount)).getD 0

/-- Conversion divisor from lamports to the human-readable native unit. -/
def LAMPORTS_PER_SOL : ℚ := 1000000000

/-- The pre-transaction token amount read by extractTokenBalanceChangeAndFee. -/
def tokenPreAmount (txDetails : TxDetails) (mint owner : String) : ℚ :=
  tokenBalanceAmount ((txDetails.meta.bind (fun m => m.preTokenBalances)).getD []) mint owner

/-- The post-transaction token amount read by extractTokenBalanceChangeAndFee. -/
def tokenPostAmount (txDetails : TxDetails) (mint owner : String) : ℚ :=
  tokenBalanceAmount ((txDetails.meta.bind (fun m => m.postTokenBalances)).getD []) mint owner

/-- extractTokenBalanceChangeAndFee: signed difference of the found token
amounts, with the network fee converted to the native unit and returned as a
separate component; default zeros when polling never yields details. -/
def extractTokenBalanceChangeAndFee (env : Nat → Option TxDetails)
    (mint owner : String) : ℚ × ℚ :=
  match fetchWithRetry env with
  | none => (0, 0)
  | some txDetails =>
    let preBalance := tokenPreAmount txDetails mint owner
    let postBalance := tokenPostAmount txDetails mint owner
    let balanceChange := postBalance - preBalance
    let fee := ((txDetails.meta.bind (fun m => m.fee)).getD 0) / LAMPORTS_PER_SOL
    (balanceChange, fee)

/-- extractAccountBalanceChangeAndFee: absolute difference of the indexed
lamport balances divided by the lamport divisor, with the network fee
returned as a separate component; default zeros when polling never yields
details.  Index accesses out of range (NaN arithmetic in JS) are modeled as
zero entries. -/
def extractAccountBalanceChangeAndFee (env : Nat → Option TxDetails)
    (accountIndex : Nat) : ℚ × ℚ :=
  match fetchWithRetry env with
  | none => (0, 0)
  | some txDetails =>
    let preBalances := (txDetails.meta.bind (fun m => m.preBalances)).getD []
    let postBalances := (txDetails.meta.bind (fun m => m.postBalances)).getD []
    let balanceChange :=
      |postBalances.getD accountIndex 0 - preBalances.getD accountIndex 0| / LAMPORTS_PER_SOL
    let fee := ((txDetails.meta.bind (fun m => m.fee)).getD 0) / LAMPORTS_PER_SOL
    (balanceChange, fee)

end Meteora

/-- Scanner for the temporal claim about broadcasts: walking the event list
while carrying the most recent height observation, every send event must be
preceded by some observation, and that most recent observed height must be
strictly below lastValidBlockHeight. -/
def sendsPrecededBy (lastValidBlockHeight : Nat) :
    List Event → Option Nat → Bool
  | [], _ => true
  | .obsHeight h :: rest, _ => sendsPrecededBy lastValidBlockHeight rest (some h)
  | .send _ :: rest, lastObs =>
    match lastObs with
    | some h => decide (h < lastValidBlockHeight) && sendsPrecededBy lastValidBlockHeight rest lastObs
    | none => false
  | .checkDirect _ :: rest, lastObs => sendsPrecededBy lastValidBlockHeight rest lastObs
  | .checkByAddr _ :: rest, lastObs => sendsPrecededBy lastValidBlockHeight rest lastObs
  | .checkFinalDirect :: rest, lastObs => sendsPrecededBy lastValidBlockHeight rest lastObs
  | .checkFinalByAddr :: rest, lastObs => sendsPrecededBy lastValidBlockHeight rest lastObs

/-- Concrete part_001 environment whose final direct check reports a
confirmed status (used to exercise the loop-exit behavior). -/
def loopExitEnvRev1 : Rev1.Env :=
  { heights := fun _ => 0
    sig := fun _ => "sigA"
    directResp := fun _ => .ok none
    byAddrResp := fun _ => .ok none
    finalDirectResp := .ok (some { err := none, confirmationStatus := some .confirmed })
    finalByAddrResp := .ok none }

/-- Concrete part_001 environment whose direct status lookup carries a
non-null on-chain error. -/
def onChainErrEnvRev1 : Rev1.Env :=
  { heights := fun _ => 0
    sig := fun _ => "sigB"
    directResp := fun _ =>
      .ok (some { err := some ("custom-program-error"), confirmationStatus := some .processed })
    byAddrResp := fun _ => .ok none
    finalDirectResp := .ok none
    finalByAddrResp := .ok none }

/-- Concrete part_001 environment where the direct status lookup fails with
an HTTP error while the reverse address lookup would report the broadcast
signature successful. -/
def directErrsEnvRev1 : Rev1.Env :=
  { heights := fun _ => 0
    sig := fun _ => "s0"
    directResp := fun _ => .httpNotOk 500
    byAddrResp := fun _ =>
      .ok (some [{ signature := "s0", err := none, confirmationStatus := some .confirmed }])
    finalDirectResp := .httpNotOk 500
    finalByAddrResp := .ok none }

/-- Concrete part_001 environment whose direct status lookup reports a
finalized status with no error. -/
def directOkEnvRev1 : Rev1.Env :=
  { heights := fun _ => 0
    sig := fun _ => "s1"
    directResp := fun _ => .ok (some { err := none, confirmationStatus := some .finalized })
    byAddrResp := fun _ => .ok none
    finalDirectResp := .ok none
    finalByAddrResp := .ok none }

/-- The fee sample list of the worked example in the spec. -/
def exampleSamples : List PrioritizationFeeSample :=
  [{ prioritizationFee := 0, slot := 1 },
   { prioritizationFee := 0, slot := 2 },
   { prioritizationFee := 5000, slot := 3 },
   { prioritizationFee := 10000, slot := 4 },
   { prioritizationFee := 20000, slot := 5 }]

/-- Network stub whose every request rejects. -/
def alwaysNetworkError : Payload → FetchResult (List PrioritizationFeeSample) :=
  fun _ => .networkError

/-- Concrete parsed-transaction meta with a native balance debit of 100000
lamports at account index 0 and a 5000 lamport fee. -/
def debitMeta : Meteora.TxMeta :=
  { preTokenBalances := none
    postTokenBalances := none
    preBalances := some [200000]
    postBalances := some [100000]
    fee := some 5000 }

/-- The parsed-transaction details wrapping debitMeta. -/
def debitTxDetails : Meteora.TxDetails := { meta := some debitMeta }

/-- Polling environment that always yields debitTxDetails. -/
def debitEnv : Nat → Option Meteora.TxDetails := fun _ => some debitTxDetails

/-- Elements of an insertion step come from the inserted value or the
list. -/
theorem mem_of_mem_sortInsert {a b : Int} {l : List Int} :
    a ∈ sortInsert b l → a = b ∨ a ∈ l := by
  induction l with
  | nil => intro h; simpa [sortInsert] using h
  | cons c l ih =>
    intro h
    by_cases hle : b ≤ c
    · simpa [sortInsert, hle] using h
    · simp only [sortInsert, if_neg hle, List.mem_cons] at h
      rcases h with h | h
      · exact Or.inr (by simp [h])
      · rcases ih h with h | h
        · exact Or.inl h
        · exact Or.inr (List.mem_cons_of_mem _ h)

/-- Elements of the sorted list come from the original list. -/
theorem mem_of_mem_sortAsc {a : Int} {l : List Int} :
    a ∈ sortAsc l → a ∈ l := by
  induction l with
  | nil => intro h; simp [sortAsc] at h
  | cons b l ih =>
    intro h
    rcases mem_of_mem_sortInsert h with h | h
    · simp [h]
    · exact List.mem_cons_of_mem _ (ih h)

/-- Every element of the filtered, sorted fee list is positive. -/
theorem pos_of_mem_nonZeroFeesSorted {m : Int} {samples : List PrioritizationFeeSample}
    (h : m ∈ nonZeroFeesSorted samples) : 0 < m := by
  have hmem := mem_of_mem_sortAsc h
  have := (List.mem_filter.1 hmem).2
  simpa using this

/-- The last element of a list is a member. -/
theorem mem_of_getLast?_eq_some {l : List Int} {a : Int} (h : l.getLast? = some a) :
    a ∈ l := by
  rcases List.mem_getLast?_eq_getLast (Option.mem_def.mpr h) with ⟨hne, heq⟩
  exact heq ▸ List.getLast_mem hne

/-- Floor of a product with a nonnegative left factor is monotone in the
fraction. -/
theorem tierFloor_mono {m : Int} (hm : 0 ≤ m) {q1 q2 : ℚ} (hq : q1 ≤ q2) :
    tierFloor m q1 ≤ tierFloor m q2 := by
  apply Int.floor_le_floor
  exact mul_le_mul_of_nonneg_left hq (by exact_mod_cast hm)

/-- The part_001 epilogue emits no broadcast and no height observation, so
the scanner accepts it under any carried observation. -/
theorem rev1_epilogue_sends (env : Rev1.Env) (lastSig : Option String)
    (lv : Nat) (lastObs : Option Nat) :
    sendsPrecededBy lv (Rev1.epilogue env lastSig).1 lastObs = true := by
  unfold Rev1.epilogue
  cases hd : Rev1.confirmTransaction env.finalDirectResp with
  | error e => simp [sendsPrecededBy]
  | ok b =>
    cases b with
    | true => simp [sendsPrecededBy]
    | false =>
      cases ha : Rev1.confirmTransactionByAddress (Rev1.sigOrUndefined lastSig) env.finalByAddrResp with
      | error e => simp [sendsPrecededBy]
      | ok b2 => cases b2 <;> simp [sendsPrecededBy]

/-- Every broadcast of the part_001 retry loop happens under a most recent
height observation that is strictly below lastValidBlockHeight, provided
the loop is entered with the carried observation being the current
blockheight. -/
theorem rev1_loop_sends (env : Rev1.Env) (lv : Nat) :
    ∀ (fuel i blockheight : Nat) (lastSig : Option String),
      sendsPrecededBy lv (Rev1.loop env lv fuel i blockheight lastSig).1
        (some blockheight) = true := by
  intro fuel
  induction fuel with
  | zero =>
    intro i h s
    by_cases hlt : h < lv
    · simp [Rev1.loop, hlt, sendsPrecededBy]
    · simp [Rev1.loop, hlt, rev1_epilogue_sends]
  | succ fuel ih =>
    intro i h s
    by_cases hlt : h < lv
    · cases hd : Rev1.confirmTransaction (env.directResp i) with
      | error e => simp [Rev1.loop, hlt, hd, sendsPrecededBy]
      | ok b =>
        cases b with
        | true => simp [Rev1.loop, hlt, hd, sendsPrecededBy]
        | false =>
          cases ha : Rev1.confirmTransactionByAddress (env.sig i) (env.byAddrResp i) with
          | error e => simp [Rev1.loop, hlt, hd, ha, sendsPrecededBy]
          | ok b2 =>
            cases b2 with
            | true => simp [Rev1.loop, hlt, hd, ha, sendsPrecededBy]
            | false => simp [Rev1.loop, hlt, hd, ha, sendsPrecededBy, ih]
    · simp [Rev1.loop, hlt, rev1_epilogue_sends]

/-- The part_002 epilogue emits no broadcast and no height observation. -/
theorem rev2_epilogue_sends (env : Rev2.Env) (commitment : Commitment)
    (lastSig : Option String) (lv : Nat) (lastObs : Option Nat) :
    sendsPrecededBy lv (Rev2.epilogue env commitment lastSig).1 lastObs = true := by
  unfold Rev2.epilogue
  cases hd : Rev2.confirmTransaction commitment env.finalDirectResp with
  | error e => simp [sendsPrecededBy]
  | ok b => cases b <;> simp [sendsPrecededBy]

/-- Every broadcast of the part_002 retry loop happens under a most recent
height observation that is strictly below lastValidBlockHeight (the single
observation taken before the loop, which the loop never refreshes). -/
theorem rev2_loop_sends (env : Rev2.Env) (commitment : Commitment) (lv : Nat) :
    ∀ (fuel i blockheight : Nat) (lastSig : Option String),
      sendsPrecededBy lv (Rev2.loop env commitment lv fuel i blockheight lastSig).1
        (some blockheight) = true := by
  intro fuel
  induction fuel with
  | zero =>
    intro i h s
    by_cases hlt : h < lv
    · simp [Rev2.loop, hlt, sendsPrecededBy]
    · simp [Rev2.loop, hlt, rev2_epilogue_sends]
  | succ fuel ih =>
    intro i h s
    by_cases hlt : h < lv
    · cases hd : Rev2.confirmTransaction commitment (env.directResp i) with
      | error e => simp [Rev2.loop, hlt, hd, sendsPrecededBy]
      | ok b =>
        cases b with
        | true => simp [Rev2.loop, hlt, hd, sendsPrecededBy]
        | false => simp [Rev2.loop, hlt, hd, sendsPrecededBy, ih]
    · simp [Rev2.loop, hlt, rev2_epilogue_sends]

/-- C1: for every submission, the submitter never broadcasts the transaction
after the observed chain block height has reached or exceeded the
transaction's lastValidBlockHeight: in every run of either revision of
sendAndConfirmTransaction, each send event in the trace is preceded by a
height observation, and the most recent observed height before each send is
strictly below lastValidBlockHeight (in part_001, the initial height plus
100; in part_002, the value taken from the transaction object). -/
theorem C1_no_broadcast_at_or_past_window :
    (∀ (env : Rev1.Env) (fuel : Nat),
      sendsPrecededBy (env.heights 0 + 100)
        (Rev1.sendAndConfirmTransaction env fuel).1 none = true)
    ∧ (∀ (env : Rev2.Env) (commitment : Commitment) (lastValidBlockHeight fuel : Nat),
      sendsPrecededBy lastValidBlockHeight
        (Rev2.sendAndConfirmTransaction env commitment lastValidBlockHeight fuel).1 none = true) := by
  constructor
  · intro env fuel
    simp [Rev1.sendAndConfirmTransaction, sendsPrecededBy, rev1_loop_sends]
  · intro env commitment lv fuel
    simp [Rev2.sendAndConfirmTransaction, sendsPrecededBy, rev2_loop_sends]

/-- When the guard fails (window expired), the part_001 loop runs exactly the
post-loop block, for every remaining fuel. -/
theorem rev1_loop_at_exit (env : Rev1.Env) (lv fuel i blockheight : Nat)
    (lastSig : Option String) (hge : lv ≤ blockheight) :
    Rev1.loop env lv fuel i blockheight lastSig = Rev1.epilogue env lastSig := by
  cases fuel <;> simp [Rev1.loop, Nat.not_lt.2 hge]

/-- When the guard fails, the part_002 loop runs exactly the post-loop
block. -/
theorem rev2_loop_at_exit (env : Rev2.Env) (commitment : Commitment)
    (lv fuel i blockheight : Nat) (lastSig : Option String) (hge : lv ≤ blockheight) :
    Rev2.loop env commitment lv fuel i blockheight lastSig =
      Rev2.epilogue env commitment lastSig := by
  cases fuel <;> simp [Rev2.loop, Nat.not_lt.2 hge]

/-- C2: when the retry loop exits because the block-height window expired
(the observed blockheight has reached lastValidBlockHeight) after a last
broadcast with signature s, the submitter performs one additional
confirmation check for s and: it returns s exactly when that final check
reports the transaction confirmed (in part_001, on either of its two read
paths), and it raises the expiration error exactly when the final check
still reports it unconfirmed. -/
theorem C2_final_check_decides_expiration :
    (∀ (env : Rev1.Env) (lv fuel i blockheight : Nat) (s : String),
      lv ≤ blockheight →
      ((Rev1.loop env lv fuel i blockheight (some s)).1.head? = some .checkFinalDirect ∧
        ((Rev1.loop env lv fuel i blockheight (some s)).2 = .ok s ↔
          Rev1.confirmTransaction env.finalDirectResp = .ok true ∨
            (Rev1.confirmTransaction env.finalDirectResp = .ok false ∧
              Rev1.confirmTransactionByAddress s env.finalByAddrResp = .ok true)) ∧
        ((Rev1.loop env lv fuel i blockheight (some s)).2 = .err .expired ↔
          Rev1.confirmTransaction env.finalDirectResp = .ok false ∧
            Rev1.confirmTransactionByAddress s env.finalByAddrResp = .ok false)))
    ∧ (∀ (env : Rev2.Env) (commitment : Commitment) (lv fuel i blockheight : Nat) (s : String),
      lv ≤ blockheight →
      ((Rev2.loop env commitment lv fuel i blockheight (some s)).1.head? = some .checkFinalDirect ∧
        ((Rev2.loop env commitment lv fuel i blockheight (some s)).2 = .ok s ↔
          Rev2.confirmTransaction commitment env.finalDirectResp = .ok true) ∧
        ((Rev2.loop env commitment lv fuel i blockheight (some s)).2 = .err .expired ↔
          Rev2.confirmTransaction commitment env.finalDirectResp = .ok false))) := by
  constructor
  · intro env lv fuel i blockheight s hge
    rw [rev1_loop_at_exit env lv fuel i blockheight (some s) hge]
    unfold Rev1.epilogue
    cases hd : Rev1.confirmTransaction env.finalDirectResp with
    | error e => simp [hd]
    | ok b =>
      cases b with
      | true => simp [hd]
      | false =>
        cases ha : Rev1.confirmTransactionByAddress (Rev1.sigOrUndefined (some s)) env.finalByAddrResp with
        | error e => simp_all [Rev1.sigOrUndefined]
        | ok b2 => cases b2 <;> simp_all [Rev1.sigOrUndefined]
  · intro env commitment lv fuel i blockheight s hge
    rw [rev2_loop_at_exit env commitment lv fuel i blockheight (some s) hge]
    unfold Rev2.epilogue
    cases hd : Rev2.confirmTransaction commitment env.finalDirectResp with
    | error e => simp [hd]
    | ok b => cases b <;> simp [hd]

/-- Witness for C2 at a concrete input: with the window expired (height 7 at
lastValidBlockHeight 5) and a final direct check reporting confirmed, the
loop returns the last broadcast signature. -/
theorem C2_final_check_decides_expiration_witness :
    (Rev1.loop loopExitEnvRev1 5 0 0 7 (some "sigA")).2 = .ok "sigA" :=
  ((C2_final_check_decides_expiration.1 loopExitEnvRev1 5 0 0 7 "sigA" (by norm_num)).2.1).mpr
    (Or.inl rfl)

/-- C3: if the direct status lookup returns a status whose on-chain error
field is non-null, the submission flow is terminal: both revisions of the
retry loop end at once with the propagated error, and the remaining trace is
exactly the broadcast of this iteration followed by this one direct check —
no further broadcast attempts and no further confirmation checks occur. -/
theorem C3_on_chain_error_is_terminal :
    (∀ (env : Rev1.Env) (lv fuel i blockheight : Nat) (lastSig : Option String)
        (status : SigStatus) (e : String),
      blockheight < lv →
      env.directResp i = .ok (some status) →
      status.err = some e →
      Rev1.loop env lv (fuel + 1) i blockheight lastSig =
        ([.send (env.sig i), .checkDirect i], .err (.confirmFailed .onChainError)))
    ∧ (∀ (env : Rev2.Env) (commitment : Commitment) (lv fuel i blockheight : Nat)
        (lastSig : Option String) (status : SigStatus) (e : String),
      blockheight < lv →
      env.directResp i = .ok (some status) →
      status.err = some e →
      Rev2.loop env commitment lv (fuel + 1) i blockheight lastSig =
        ([.send (env.sig i), .checkDirect i], .err (.confirmFailed .onChainError))) := by
  constructor
  · intro env lv fuel i blockheight lastSig status e hlt hresp herr
    simp [Rev1.loop, hlt, Rev1.confirmTransaction, hresp, herr]
  · intro env commitment lv fuel i blockheight lastSig status e hlt hresp herr
    simp [Rev2.loop, hlt, Rev2.confirmTransaction, hresp, herr]

/-- Witness for C3 at a concrete input: a status carrying an on-chain error
ends the part_001 run immediately with the propagated error. -/
theorem C3_on_chain_error_is_terminal_witness :
    Rev1.loop onChainErrEnvRev1 100 1 0 0 none =
      ([.send ("sigB"), .checkDirect 0], .err (.confirmFailed .onChainError)) :=
  C3_on_chain_error_is_terminal.1 onChainErrEnvRev1 100 0 0 0 none
    { err := some ("custom-program-error"), confirmationStatus := some .processed }
    ("custom-program-error") (by norm_num) rfl rfl

/-- C4 counterexample: in the part_001 submitter, when the direct status
lookup fails with an HTTP error, the result of the reverse address lookup is
never consulted: even though that read path reports the broadcast signature
successful, the run raises the propagated direct-path error instead of
returning the signature.  This refutes the claim that a success report of
either path suffices including when the other path errors. -/
theorem C4_counterexample :
    Rev1.confirmTransactionByAddress ("s0") (directErrsEnvRev1.byAddrResp 0) = .ok true
      ∧ (Rev1.sendAndConfirmTransaction directErrsEnvRev1 1).2 =
          .err (.confirmFailed (.httpError 500)) := by
  exact ⟨rfl, rfl⟩

/-- C4 (amended): if the direct status lookup reports success, the submitter
returns the signature; if the direct lookup answers unconfirmed (without
erroring) and the reverse address lookup reports success, the submitter
likewise returns the signature.  A success report of the reverse path is
honored only when the direct path returned an answer rather than threw. -/
theorem C4_success_paths_after_direct_answer :
    ∀ (env : Rev1.Env) (lv fuel i blockheight : Nat) (lastSig : Option String),
      blockheight < lv →
      (Rev1.confirmTransaction (env.directResp i) = .ok true →
        (Rev1.loop env lv (fuel + 1) i blockheight lastSig).2 = .ok (env.sig i)) ∧
      (Rev1.confirmTransaction (env.directResp i) = .ok false →
        Rev1.confirmTransactionByAddress (env.sig i) (env.byAddrResp i) = .ok true →
        (Rev1.loop env lv (fuel + 1) i blockheight lastSig).2 = .ok (env.sig i)) := by
  intro env lv fuel i blockheight lastSig hlt
  constructor
  · intro hd
    simp [Rev1.loop, hlt, hd]
  · intro hd ha
    simp [Rev1.loop, hlt, hd, ha]

/-- Witness for the amended C4 at a concrete input: a direct-path success
report makes the loop return the broadcast signature. -/
theorem C4_success_paths_after_direct_answer_witness :
    (Rev1.loop directOkEnvRev1 100 1 0 0 none).2 = .ok ("s1") :=
  (C4_success_paths_after_direct_answer directOkEnvRev1 100 0 0 0 none (by norm_num)).1 rfl

/-- C5: the part_002 confirmation check compares the reported confirmation
status with the requested commitment by strict equality, so a status of
finalized does not satisfy a request for confirmed — the code returns false
where the ordered-commitment reading requires true.  The sibling part_001
revision accepts finalized for its fixed confirmed-level check, confirming
the intended ordered semantics. -/
theorem C5_strict_equality_rejects_stronger_status :
    Rev2.confirmTransaction .confirmed
        (.ok (some { err := none, confirmationStatus := some .finalized })) = .ok false
      ∧ Rev1.confirmTransaction
          (.ok (some { err := none, confirmationStatus := some .finalized })) = .ok true := by
  exact ⟨rfl, rfl⟩

/-- Tier bounds of the part_001 computation: for every sample list the four
tiers are monotonically non-decreasing and each tier is at least its
DEFAULT_FEES floor. -/
theorem rev1_computeTiers_bounds (samples : List PrioritizationFeeSample) :
    ((Rev1.computeTiers samples).low ≤ (Rev1.computeTiers samples).medium ∧
      (Rev1.computeTiers samples).medium ≤ (Rev1.computeTiers samples).high ∧
      (Rev1.computeTiers samples).high ≤ (Rev1.computeTiers samples).extreme) ∧
    (Rev1.DEFAULT_FEES.low ≤ (Rev1.computeTiers samples).low ∧
      Rev1.DEFAULT_FEES.medium ≤ (Rev1.computeTiers samples).medium ∧
      Rev1.DEFAULT_FEES.high ≤ (Rev1.computeTiers samples).high ∧
      Rev1.DEFAULT_FEES.extreme ≤ (Rev1.computeTiers samples).extreme) := by
  unfold Rev1.computeTiers
  cases hml : (nonZeroFeesSorted samples).getLast? with
  | none => simp [Rev1.DEFAULT_FEES]
  | some maxFee =>
    have hpos : (0 : Int) < maxFee :=
      pos_of_mem_nonZeroFeesSorted (mem_of_getLast?_eq_some hml)
    have h0 : (0 : Int) ≤ maxFee := le_of_lt hpos
    refine ⟨⟨?_, ?_, ?_⟩, ?_, ?_, ?_, ?_⟩
    · exact max_le_max (tierFloor_mono h0 (by norm_num)) (by norm_num [Rev1.DEFAULT_FEES])
    · exact max_le_max (tierFloor_mono h0 (by norm_num)) (by norm_num [Rev1.DEFAULT_FEES])
    · exact max_le_max (tierFloor_mono h0 (by norm_num)) (by norm_num [Rev1.DEFAULT_FEES])
    · exact le_max_right _ _
    · exact le_max_right _ _
    · exact le_max_right _ _
    · exact le_max_right _ _

/-- C6: for every account argument and every network behavior — hence for
every list of fee samples, including the empty and all-zero lists, as well
as the HTTP-error and thrown-error paths — the part_001 fee estimate
satisfies low ≤ medium ≤ high ≤ extreme, and every tier is at least its
configured DEFAULT_FEES minimum floor. -/
theorem C6_fee_tiers_monotone_and_floored :
    ∀ (account : Option String) (net : Payload → FetchResult (List PrioritizationFeeSample)),
      ((Rev1.fetchEstimatePriorityFees account net).low ≤
          (Rev1.fetchEstimatePriorityFees account net).medium ∧
        (Rev1.fetchEstimatePriorityFees account net).medium ≤
          (Rev1.fetchEstimatePriorityFees account net).high ∧
        (Rev1.fetchEstimatePriorityFees account net).high ≤
          (Rev1.fetchEstimatePriorityFees account net).extreme) ∧
      (Rev1.DEFAULT_FEES.low ≤ (Rev1.fetchEstimatePriorityFees account net).low ∧
        Rev1.DEFAULT_FEES.medium ≤ (Rev1.fetchEstimatePriorityFees account net).medium ∧
        Rev1.DEFAULT_FEES.high ≤ (Rev1.fetchEstimatePriorityFees account net).high ∧
        Rev1.DEFAULT_FEES.extreme ≤ (Rev1.fetchEstimatePriorityFees account net).extreme) := by
  intro account net
  unfold Rev1.fetchEstimatePriorityFees Rev1.fetchEstimatePriorityFeesTry
  cases net (Rev1.priorityFeePayload account) with
  | networkError => simp [Rev1.DEFAULT_FEES]
  | httpNotOk status => simp [Rev1.DEFAULT_FEES]
  | ok samples => simpa using rev1_computeTiers_bounds samples

/-- C7: on the sample list with fees 0, 0, 5000, 10000, 20000 the part_002
estimator discards the zero samples leaving the sorted nonzero fees 5000,
10000, 20000, takes the maximum 20000, and returns exactly low 5000, medium
10000, high 15000, extreme 20000 (25, 50, 75, 100 percent of the maximum,
floored). -/
theorem C7_worked_example_schedule :
    nonZeroFeesSorted exampleSamples = [5000, 10000, 20000]
      ∧ Rev2.fetchEstimatePriorityFees
          (some ("JUP6LkbZbjS1jKKwapdHNy74zcZ3tLUZoi5QNyVTaV4"))
          (fun _ => .ok exampleSamples) =
        { low := 5000, medium := 10000, high := 15000, extreme := 20000 } := by
  constructor
  · rfl
  · show Rev2.computeTiers exampleSamples = _
    have hml : (nonZeroFeesSorted exampleSamples).getLast? = some 20000 := rfl
    have h1 : tierFloor 20000 (1/4) = 5000 := by norm_num [tierFloor]
    have h2 : tierFloor 20000 (1/2) = 10000 := by norm_num [tierFloor]
    have h3 : tierFloor 20000 (3/4) = 15000 := by norm_num [tierFloor]
    have h4 : tierFloor 20000 1 = 20000 := by norm_num [tierFloor]
    simp only [Rev2.computeTiers, hml, h1, h2, h3, h4]

/-- C8: the part_001 fee estimator never raises.  Every error of the try
body is absorbed by the catch into the hardcoded DEFAULT_FEES schedule, and
each degenerate input — a rejected request, a non-ok HTTP response, and a
sample set whose nonzero part is empty (so the empty and the all-zero
lists) — yields DEFAULT_FEES unchanged. -/
theorem C8_estimator_never_raises_falls_back :
    ∀ (account : Option String) (net : Payload → FetchResult (List PrioritizationFeeSample)),
      (∀ e, Rev1.fetchEstimatePriorityFeesTry account net = .error e →
        Rev1.fetchEstimatePriorityFees account net = Rev1.DEFAULT_FEES) ∧
      (net (Rev1.priorityFeePayload account) = .networkError →
        Rev1.fetchEstimatePriorityFees account net = Rev1.DEFAULT_FEES) ∧
      (∀ status, net (Rev1.priorityFeePayload account) = .httpNotOk status →
        Rev1.fetchEstimatePriorityFees account net = Rev1.DEFAULT_FEES) ∧
      (∀ samples, net (Rev1.priorityFeePayload account) = .ok samples →
        nonZeroFeesSorted samples = [] →
        Rev1.fetchEstimatePriorityFees account net = Rev1.DEFAULT_FEES) := by
  intro account net
  refine ⟨?_, ?_, ?_, ?_⟩
  · intro e he
    simp [Rev1.fetchEstimatePriorityFees, he]
  · intro hn
    simp [Rev1.fetchEstimatePriorityFees, Rev1.fetchEstimatePriorityFeesTry, hn]
  · intro status hn
    simp [Rev1.fetchEstimatePriorityFees, Rev1.fetchEstimatePriorityFeesTry, hn]
  · intro samples hn hz
    simp [Rev1.fetchEstimatePriorityFees, Rev1.fetchEstimatePriorityFeesTry, hn,
      Rev1.computeTiers, hz]

/-- Witness for C8 at a concrete input: a network stub that always rejects
yields DEFAULT_FEES. -/
theorem C8_estimator_never_raises_falls_back_witness :
    Rev1.fetchEstimatePriorityFees none alwaysNetworkError = Rev1.DEFAULT_FEES :=
  (C8_estimator_never_raises_falls_back none alwaysNetworkError).2.1 rfl

/-- C10: the part_001 fee estimator's request carries the fixed hardcoded
tracking account whenever any reference account is supplied, so for any two
supplied account values the request payloads are identical and, against the
same network behavior, the returned estimates are equal: the estimate
depends only on the presence of the argument, never on its value. -/
theorem C10_request_independent_of_supplied_account :
    ∀ (a1 a2 : String) (net : Payload → FetchResult (List PrioritizationFeeSample)),
      Rev1.priorityFeePayload (some a1) = Rev1.priorityFeePayload (some a2)
        ∧ Rev1.fetchEstimatePriorityFees (some a1) net =
            Rev1.fetchEstimatePriorityFees (some a2) net := by
  intro a1 a2 net
  exact ⟨rfl, rfl⟩

/-- A polling environment that succeeds immediately returns its details. -/
theorem fetchWithRetry_const (txDetails : Meteora.TxDetails) :
    Meteora.fetchWithRetry (fun _ => some txDetails) = some txDetails := rfl

/-- C9 counterexample: for a confirmed transaction whose native balance at
account index 0 moved from 200000 to 100000 lamports (a debit) with a fee of
5000 lamports, the account extractor returns the positive value 1 / 10000
(the absolute lamport change over the divisor), while the claimed signed,
fee-subtracted delta is the distinct negative value -(21 / 200000): the code
discards the sign and does not subtract the fee from the delta. -/
theorem C9_counterexample :
    (Meteora.extractAccountBalanceChangeAndFee debitEnv 0).1 = 1 / 10000
      ∧ ((100000 : ℚ) - 200000) / Meteora.LAMPORTS_PER_SOL
          - 5000 / Meteora.LAMPORTS_PER_SOL = -(21 / 200000)
      ∧ ((1 : ℚ) / 10000) ≠ -(21 / 200000) := by
  refine ⟨?_, ?_, ?_⟩
  · show |((100000 : ℚ)) - 200000| / Meteora.LAMPORTS_PER_SOL = 1 / 10000
    rw [show |((100000 : ℚ)) - 200000| = 100000 by
      rw [abs_of_nonpos (by norm_num)]; norm_num]
    norm_num [Meteora.LAMPORTS_PER_SOL]
  · norm_num [Meteora.LAMPORTS_PER_SOL]
  · norm_num

/-- C9 (amended): the token-path observation returns the signed change
after minus before — its delta is negative exactly when the post amount is
below the pre amount — while the account-path (native) observation returns
the absolute value of the lamport change over the lamport divisor, hence is
never negative, and the network fee is returned as a separate component of
the result and is not subtracted from the delta: the delta is independent of
the fee field of the transaction meta. -/
theorem C9_token_signed_account_absolute_fee_separate :
    ∀ (txDetails : Meteora.TxDetails) (mint owner : String) (accountIndex : Nat)
      (m : Meteora.TxMeta) (f g : Option ℚ),
      ((Meteora.extractTokenBalanceChangeAndFee (fun _ => some txDetails) mint owner).1 < 0 ↔
        Meteora.tokenPostAmount txDetails mint owner <
          Meteora.tokenPreAmount txDetails mint owner)
      ∧ 0 ≤ (Meteora.extractAccountBalanceChangeAndFee (fun _ => some txDetails) accountIndex).1
      ∧ (Meteora.extractAccountBalanceChangeAndFee
            (fun _ => some { meta := some { m with fee := f } }) accountIndex).1 =
          (Meteora.extractAccountBalanceChangeAndFee
            (fun _ => some { meta := some { m with fee := g } }) accountIndex).1 := by
  intro txDetails mint owner accountIndex m f g
  have hfetch := fetchWithRetry_const txDetails
  refine ⟨?_, ?_, ?_⟩
  · simp only [Meteora.extractTokenBalanceChangeAndFee, hfetch]
    exact sub_neg
  · simp only [Meteora.extractAccountBalanceChangeAndFee, hfetch]
    exact div_nonneg (abs_nonneg _) (by norm_num [Meteora.LAMPORTS_PER_SOL])
  · rfl
